import Mathlib

/-!
Shallow embedding of the Color/Size variant resolution and cart-line builder
of src/app/components/ProductForm.jsx (repository necti-inc/Plus-1-Blanks).

Modelling conventions for the JavaScript host semantics:
* a nullable/optional field is an Option;
* JS string truthiness (the empty string is falsy) is made explicit wherever
  the source tests a string with plain truthiness (variant?.id, amount, ...);
* JS number NaN (from parseFloat on a malformed string) is the none of an
  Option Rat; a successful parse is some q;
* quantities held in React state come from parseInt(...) || 0 and are
  integers, modelled as Int (they can be negative if the user types one);
* JS === between a possibly-undefined string and a string is equality of
  Option String against some _, undefined === s being false.
-/

namespace ProductForm

/-- Selected option entry of a variant: opt.name / opt.value, both nullable
(the source guards them with optional chaining). -/
structure SelOpt where
  name : Option String
  value : Option String
deriving Repr, DecidableEq

/-- Variant snapshot as consumed by ProductForm.jsx. productHandle models
variant.product?.handle (flattened), priceAmount models variant.price?.amount,
quantityAvailable the nullable inventory count. -/
structure Variant where
  id : Option String
  selectedOptions : Option (List (Option SelOpt))
  availableForSale : Bool
  productHandle : Option String
  quantityAvailable : Option Int
  priceAmount : Option String
deriving Repr, DecidableEq

/-- The active color product (color bundle): its handle and its nullable
adjacentVariants list (entries guarded by variant?. in the source). -/
structure ColorProduct where
  handle : String
  adjacentVariants : Option (List (Option Variant))
deriving Repr, DecidableEq

/-- One size option value: label, pre-resolved firstSelectableVariant, and
the base product's available / exists flags. -/
structure OptionValue where
  name : String
  firstSelectableVariant : Option Variant
  available : Bool
  exists_ : Bool
deriving Repr, DecidableEq

/-- A mapped product option: name plus its option values. -/
structure ProductOption where
  name : String
  optionValues : List OptionValue
deriving Repr, DecidableEq

/-- Cart line as built by the source: merchandiseId := variant?.id,
quantity := sizeQuantities[value.name] (undefined modelled as none),
selectedVariant := the resolved variant. -/
structure CartLine where
  merchandiseId : Option String
  quantity : Option Int
  selectedVariant : Option Variant
deriving Repr, DecidableEq

/-- Quantity state: sizeQuantities, a map from size label to the typed
quantity; an unset key is none. -/
def QuantityMap : Type := String → Option Int

/-- Model of String.prototype.toLowerCase, written over the character list
so that it evaluates inside the kernel. -/
def toLowerJS (s : String) : String :=
  ⟨s.data.map Char.toLower⟩

/-- Model of String.prototype.trim (leading and trailing whitespace
removed), written over the character list so that it evaluates inside the
kernel. -/
def trimJS (s : String) : String :=
  ⟨((s.data.dropWhile Char.isWhitespace).reverse.dropWhile
      Char.isWhitespace).reverse⟩

/-- Test opt?.name?.toLowerCase() === 'size' on a nullable selected option. -/
def isSizeOpt (oo : Option SelOpt) : Bool :=
  match oo with
  | none => false
  | some o => o.name.map toLowerJS = some "size"

/-- The adjacent-variant predicate of the LOOSE findVariantForSize
(ProductForm.jsx lines 54-61): requires selectedOptions non-null and the
Size option value, trimmed, to equal the requested label trimmed.  No check
of the variant's product handle. -/
def looseMatches (sizeName : String) (ov : Option Variant) : Bool :=
  match ov with
  | none => false
  | some v =>
    match v.selectedOptions with
    | none => false
    | some opts =>
      match opts.find? isSizeOpt with
      | some (some o) => o.value.map trimJS = some (trimJS sizeName)
      | _ => false

/-- The LOOSE findVariantForSize of ProductForm (lines 47-64): scan the
selected color product's adjacent variants for one whose Size value matches
the requested label, with no product-handle validation. -/
def findVariantLoose (scp : Option ColorProduct) (sizeName : String) :
    Option Variant :=
  match scp with
  | none => none
  | some p =>
    match p.adjacentVariants with
    | none => none
    | some avs =>
      match avs.find? (looseMatches sizeName) with
      | some (some v) => some v
      | _ => none

/-- The adjacent-variant predicate of the STRICT findVariantForSize
(SizeSelectorWithQuantities lines 278-295): selectedOptions non-null, the
variant's product handle must equal the color product's handle, a Size
option must exist, and its trimmed value must equal the normalized label. -/
def strictMatches (p : ColorProduct) (normalizedSizeName : String)
    (ov : Option Variant) : Bool :=
  match ov with
  | none => false
  | some v =>
    match v.selectedOptions with
    | none => false
    | some opts =>
      if v.productHandle ≠ some p.handle then false
      else
        match opts.find? isSizeOpt with
        | some (some o) => o.value.map trimJS = some normalizedSizeName
        | _ => false

/-- The STRICT findVariantForSize of SizeSelectorWithQuantities
(lines 268-310): same scan but re-validating bundle membership by product
handle. -/
def findVariantStrict (scp : Option ColorProduct) (sizeName : String) :
    Option Variant :=
  match scp with
  | none => none
  | some p =>
    match p.adjacentVariants with
    | none => none
    | some avs =>
      match avs.find? (strictMatches p (trimJS sizeName)) with
      | some (some v) => some v
      | _ => none

/-- Look up the matching size option value inside the effective size option:
effectiveSizeOption?.optionValues.find(v => v.name === value.name). -/
def findColorSizeValue (effOpt : Option ProductOption) (label : String) :
    Option OptionValue :=
  match effOpt with
  | none => none
  | some eo => eo.optionValues.find? (fun v => v.name = label)

/-- The LOOSE per-size resolution used by the cart-line builder
(ProductForm lines 73-82 and 89-98): loose adjacent scan, then the color
size value's firstSelectableVariant with no validation, then the base
value's firstSelectableVariant unconditionally. -/
def resolveCart (scp : Option ColorProduct) (effOpt : Option ProductOption)
    (value : OptionValue) : Option Variant :=
  match findVariantLoose scp value.name with
  | some v => some v
  | none =>
    match (findColorSizeValue effOpt value.name).bind
        OptionValue.firstSelectableVariant with
    | some v => some v
    | none => value.firstSelectableVariant

/-- Trimmed Size option value of a candidate variant, as read by the display
path's step 2: candidateVariant.selectedOptions?.find(size opt)?.value?.trim(). -/
def candSizeValue (cand : Variant) : Option String :=
  match cand.selectedOptions with
  | none => none
  | some opts =>
    match opts.find? isSizeOpt with
    | some (some o) => o.value.map trimJS
    | _ => none

/-- The STRICT per-size resolution of the display path
(SizeSelectorWithQuantities lines 331-362): strict adjacent scan; if that
fails and a color product plus an effective size option are present, accept
the pre-resolved firstSelectableVariant only when its product handle equals
the color product's handle and its trimmed Size value equals the trimmed
label; fall back to the base value's firstSelectableVariant only when no
color product is selected. -/
def resolveDisplay (scp : Option ColorProduct) (effOpt : Option ProductOption)
    (value : OptionValue) : Option Variant :=
  let step1 := findVariantStrict scp value.name
  let step2 :=
    match step1 with
    | some v => some v
    | none =>
      match scp, effOpt with
      | some p, some eo =>
        match (findColorSizeValue (some eo) value.name).bind
            OptionValue.firstSelectableVariant with
        | none => none
        | some cand =>
          if cand.productHandle = some p.handle ∧
              candSizeValue cand = some (trimJS value.name) then
            some cand
          else
            none
      | _, _ => none
  match step2 with
  | some v => some v
  | none =>
    match scp with
    | some _ => none
    | none => value.firstSelectableVariant

/-- Availability of a size in the display path (lines 372-390): with a
variant and a color product, available iff the handles match and
availableForSale is true; with a variant and no color product, the variant's
flag; with no variant, false when a color product is selected, else the base
value's available and exists flags. -/
def computeAvailable (variant : Option Variant) (scp : Option ColorProduct)
    (value : OptionValue) : Bool :=
  match variant with
  | some v =>
    match scp with
    | some p =>
      if v.productHandle = some p.handle then v.availableForSale else false
    | none => v.availableForSale
  | none =>
    match scp with
    | some _ => false
    | none => value.available && value.exists_

/-- Display stock (lines 398-409): a non-null quantityAvailable is used
verbatim; else 999 when available, else 0. -/
def stockQuantity (variant : Option Variant) (available : Bool) : Int :=
  match variant with
  | some v =>
    match v.quantityAvailable with
    | some n => n
    | none => if available then 999 else 0
  | none => if available then 999 else 0

/-- Fold a digit list into a Nat. -/
def digitsToNat (ds : List Char) : Nat :=
  ds.foldl (fun n c => n * 10 + (c.toNat - 48)) 0

/-- Model of the host parseFloat as used on price amounts: skip leading
whitespace, optional sign, longest decimal-number prefix with optional
fractional part and optional exponent; none models NaN (no digit in the
mantissa).  The parsed value sign * intDigits.fracDigits * 10 ^ exponent is
assembled as one integer quotient so that it evaluates inside the kernel.
The Infinity literal is not modelled; no amount uses it. -/
def parseFloatJS (s : String) : Option Rat :=
  let cs := s.data.dropWhile fun c =>
    c = ' ' ∨ c = '\t' ∨ c = '\n' ∨ c = '\r'
  let signed : Int × List Char :=
    match cs with
    | '-' :: rest => (-1, rest)
    | '+' :: rest => (1, rest)
    | _ => (1, cs)
  let sign := signed.1
  let cs1 := signed.2
  let intDs := cs1.takeWhile Char.isDigit
  let cs2 := cs1.dropWhile Char.isDigit
  let fracPart : List Char × List Char :=
    match cs2 with
    | '.' :: rest => (rest.takeWhile Char.isDigit, rest.dropWhile Char.isDigit)
    | _ => ([], cs2)
  let fracDs := fracPart.1
  let cs3 := fracPart.2
  if intDs.isEmpty ∧ fracDs.isEmpty then none
  else
    let expVal : Int :=
      match cs3 with
      | 'e' :: rest | 'E' :: rest =>
        let esigned : Int × List Char :=
          match rest with
          | '-' :: r => (-1, r)
          | '+' :: r => (1, r)
          | _ => (1, rest)
        let eds := esigned.2.takeWhile Char.isDigit
        if eds.isEmpty then 0 else esigned.1 * (digitsToNat eds : Int)
      | _ => 0
    let shift : Int := expVal - (fracDs.length : Int)
    let mantissa : Nat := digitsToNat (intDs ++ fracDs)
    if 0 ≤ shift then
      some (Rat.divInt (sign * ((mantissa * 10 ^ shift.toNat : Nat) : Int)) 1)
    else
      some (Rat.divInt (sign * (mantissa : Int))
        ((10 ^ (-shift).toNat : Nat) : Int))

/-- Displayed price (lines 364-367): variant?.price?.amount truthy (present
and non-empty) gives parseFloat of the amount (none models NaN); otherwise
the literal 0. -/
def price (variant : Option Variant) : Option Rat :=
  match variant with
  | none => some 0
  | some v =>
    match v.priceAmount with
    | none => some 0
    | some a => if a = "" then some 0 else parseFloatJS a

/-- JS truthiness of variant?.id on an already-resolved variant. -/
def truthyId (v : Variant) : Bool :=
  match v.id with
  | some s => s ≠ ""
  | none => false

/-- Filter of the cart-line builder (lines 68-86): positive quantity, and a
resolved variant with a truthy id that is availableForSale. -/
def keepValue (scp : Option ColorProduct) (effOpt : Option ProductOption)
    (q : QuantityMap) (value : OptionValue) : Bool :=
  match q value.name with
  | none => false
  | some n =>
    if n ≤ 0 then false
    else
      match resolveCart scp effOpt value with
      | none => false
      | some v => truthyId v && v.availableForSale

/-- Map of the cart-line builder (lines 87-105): re-resolve with the same
logic and build the line. -/
def toLine (scp : Option ColorProduct) (effOpt : Option ProductOption)
    (q : QuantityMap) (value : OptionValue) : CartLine :=
  let variant := resolveCart scp effOpt value
  { merchandiseId := variant.bind Variant.id
    quantity := q value.name
    selectedVariant := variant }

/-- JS truthiness of line.merchandiseId in the final filter (line 106). -/
def truthyMid (l : CartLine) : Bool :=
  match l.merchandiseId with
  | some s => s ≠ ""
  | none => false

/-- The cart-line builder (ProductForm lines 67-106):
sizeOption.optionValues.filter(...).map(...).filter(line => line.merchandiseId). -/
def cartLines (scp : Option ColorProduct) (effOpt : Option ProductOption)
    (q : QuantityMap) (values : List OptionValue) : List CartLine :=
  ((values.filter (keepValue scp effOpt q)).map (toLine scp effOpt q)).filter
    truthyMid

/-- Lines of the standard (non size-selector) form (lines 146-156): one line
with quantity 1 for the selected variant, or the empty list. -/
def standardFormLines (selectedVariant : Option Variant) : List CartLine :=
  match selectedVariant with
  | some v => [{ merchandiseId := v.id, quantity := some 1,
                 selectedVariant := some v }]
  | none => []

/-- Disabled flag of the standard form's add-to-cart button (line 144). -/
def standardFormDisabled (selectedVariant : Option Variant) : Bool :=
  match selectedVariant with
  | none => true
  | some v => !v.availableForSale

/-- productOptions.find(option => option.name.toLowerCase() === 'size')
(lines 19-21). -/
def findSizeOption (productOptions : List ProductOption) :
    Option ProductOption :=
  productOptions.find? fun o => toLowerJS o.name = "size"

/-- Branch condition of ProductForm (line 38): the size selector is used iff
a Size option exists and has more than one value. -/
def usesSizeSelector (productOptions : List ProductOption) : Bool :=
  match findSizeOption productOptions with
  | some o => decide (o.optionValues.length > 1)
  | none => false

/-! Concrete fixtures used by scenario theorems and witnesses. -/

/-- Build a Size selected-option entry with the given value. -/
def soSize (v : String) : Option SelOpt :=
  some { name := some "Size", value := some v }

/-- Adjacent variant of the red color product, size M. -/
def vRedM : Variant :=
  { id := some "gid-red-M", selectedOptions := some [soSize "M"],
    availableForSale := true, productHandle := some "shirt-red",
    quantityAvailable := some 4, priceAmount := some "10.0" }

/-- Base-product variant for size L (handle of the base product, not of the
red bundle). -/
def vBaseL : Variant :=
  { id := some "gid-base-L", selectedOptions := some [soSize "L"],
    availableForSale := true, productHandle := some "shirt",
    quantityAvailable := none, priceAmount := some "10.0" }

/-- Variant of a different color product (handle shirt-blue), size L. -/
def vForeignL : Variant :=
  { id := some "gid-blue-L", selectedOptions := some [soSize "L"],
    availableForSale := true, productHandle := some "shirt-blue",
    quantityAvailable := some 5, priceAmount := some "12.5" }

/-- Active color product shirt-red whose only adjacent variant has size M. -/
def scpRed : ColorProduct :=
  { handle := "shirt-red", adjacentVariants := some [some vRedM] }

/-- Color product shirt-red whose adjacent list wrongly contains a variant
of another product. -/
def scpRedForeign : ColorProduct :=
  { handle := "shirt-red", adjacentVariants := some [some vForeignL] }

/-- Size option value L whose base fallback variant is vBaseL. -/
def valueL : OptionValue :=
  { name := "L", firstSelectableVariant := some vBaseL,
    available := true, exists_ := true }

/-- Size option value L with no base fallback variant. -/
def valueLBare : OptionValue :=
  { name := "L", firstSelectableVariant := none,
    available := true, exists_ := true }

/-- Effective size option whose pre-resolved L variant belongs to
shirt-blue, not to the active shirt-red bundle. -/
def effOptForeign : ProductOption :=
  { name := "Size",
    optionValues := [{ name := "L", firstSelectableVariant := some vForeignL,
                       available := true, exists_ := true }] }

/-- Quantity state requesting two units of size L. -/
def qL2 : QuantityMap := fun n => if n = "L" then some 2 else none

/-- Quantity state requesting one unit of size L. -/
def qL1 : QuantityMap := fun n => if n = "L" then some 1 else none

/-- Available base variant for size S. -/
def vS : Variant :=
  { id := some "gid-S", selectedOptions := some [soSize "S"],
    availableForSale := true, productHandle := some "shirt",
    quantityAvailable := some 10, priceAmount := some "10.0" }

/-- Available base variant for size M. -/
def vM : Variant :=
  { id := some "gid-M", selectedOptions := some [soSize "M"],
    availableForSale := true, productHandle := some "shirt",
    quantityAvailable := some 7, priceAmount := some "10.0" }

/-- Available base variant for size L (scenario-3 fixture). -/
def vL3 : Variant :=
  { id := some "gid-L", selectedOptions := some [soSize "L"],
    availableForSale := true, productHandle := some "shirt",
    quantityAvailable := some 6, priceAmount := some "10.0" }

/-- Size option value S resolving to vS. -/
def valueS : OptionValue :=
  { name := "S", firstSelectableVariant := some vS,
    available := true, exists_ := true }

/-- Size option value M resolving to vM. -/
def valueM : OptionValue :=
  { name := "M", firstSelectableVariant := some vM,
    available := true, exists_ := true }

/-- Size option value L resolving to vL3. -/
def valueL3 : OptionValue :=
  { name := "L", firstSelectableVariant := some vL3,
    available := true, exists_ := true }

/-- Size option with the values S, M, L in stable order. -/
def sizeOptSML : ProductOption :=
  { name := "Size", optionValues := [valueS, valueM, valueL3] }

/-- Scenario-3 quantity state: S mapped to 2, M to 0, L to 1. -/
def qSML : QuantityMap := fun n =>
  if n = "S" then some 2
  else if n = "M" then some 0
  else if n = "L" then some 1
  else none

/-- Available variant with a known inventory count of 3. -/
def vBig : Variant :=
  { id := some "gid-big", selectedOptions := some [soSize "XL"],
    availableForSale := true, productHandle := some "shirt",
    quantityAvailable := some 3, priceAmount := some "10.0" }

/-- Size option value XL resolving to vBig. -/
def valueBig : OptionValue :=
  { name := "XL", firstSelectableVariant := some vBig,
    available := true, exists_ := true }

/-- Quantity state requesting 5000 units of size XL. -/
def qBig : QuantityMap := fun n => if n = "XL" then some 5000 else none

/-- Variant whose price amount string is not a number. -/
def vMalformedPrice : Variant :=
  { id := some "gid-bad", selectedOptions := some [soSize "L"],
    availableForSale := true, productHandle := some "shirt",
    quantityAvailable := none, priceAmount := some "abc" }

/-! Price erasure, used to state that the cart-line builder is independent
of every price amount in its inputs. -/

/-- Erase the price amount of a variant; all other fields are untouched. -/
def stripPriceV (v : Variant) : Variant :=
  { id := v.id, selectedOptions := v.selectedOptions,
    availableForSale := v.availableForSale, productHandle := v.productHandle,
    quantityAvailable := v.quantityAvailable, priceAmount := none }

/-- Erase the price of a nullable variant. -/
def stripPriceOV (ov : Option Variant) : Option Variant :=
  ov.map stripPriceV

/-- Erase the price inside a size option value. -/
def stripPriceValue (value : OptionValue) : OptionValue :=
  { name := value.name,
    firstSelectableVariant := value.firstSelectableVariant.map stripPriceV,
    available := value.available, exists_ := value.exists_ }

/-- Erase every price inside a color product. -/
def stripPriceCP (p : ColorProduct) : ColorProduct :=
  { handle := p.handle,
    adjacentVariants := p.adjacentVariants.map (List.map stripPriceOV) }

/-- Erase every price inside a product option. -/
def stripPriceOption (o : ProductOption) : ProductOption :=
  { name := o.name, optionValues := o.optionValues.map stripPriceValue }

/-- The submission-relevant part of a cart line: merchandise id and
quantity. -/
def lineKey (l : CartLine) : Option String × Option Int :=
  (l.merchandiseId, l.quantity)

end ProductForm

namespace ProductForm

/-- Linear scan helper: find? is determined by the pointwise values of its
predicate on the list. -/
theorem findOpt_congr {α : Type} (f g : α → Bool) :
    ∀ l : List α, (∀ a ∈ l, f a = g a) → l.find? f = l.find? g
  | [], _ => rfl
  | a :: t, h => by
    have ha : f a = g a := h a (by simp)
    have ht := findOpt_congr f g t (fun x hx => h x (by simp [hx]))
    cases hga : g a with
    | true => simp [List.find?_cons, ha, hga]
    | false => simp [List.find?_cons, ha, hga, ht]

/-- The cart-line builder distributes over concatenation of the size option
value list: it is a per-value computation in stable input order. -/
theorem cartLines_append (scp : Option ColorProduct)
    (effOpt : Option ProductOption) (q : QuantityMap)
    (xs ys : List OptionValue) :
    cartLines scp effOpt q (xs ++ ys) =
      cartLines scp effOpt q xs ++ cartLines scp effOpt q ys := by
  simp [cartLines, List.filter_append, List.map_append]

/-- C1: with the red bundle active and size L absent from its adjacent
variants, the display path resolves no variant and reports unavailable, but
the cart-line builder falls back to the base product's variant and emits a
line for it — the cart path does not exclude the size as the claim (and the
strict path's own comments) require. -/
theorem c1_cart_path_emits_base_variant_despite_missing_size :
    findVariantLoose (some scpRed) "L" = none ∧
    findVariantStrict (some scpRed) "L" = none ∧
    resolveDisplay (some scpRed) none valueL = none ∧
    computeAvailable (resolveDisplay (some scpRed) none valueL)
      (some scpRed) valueL = false ∧
    stockQuantity (resolveDisplay (some scpRed) none valueL)
      (computeAvailable (resolveDisplay (some scpRed) none valueL)
        (some scpRed) valueL) = 0 ∧
    cartLines (some scpRed) none qL2 [valueL] =
      [{ merchandiseId := some "gid-base-L", quantity := some 2,
         selectedVariant := some vBaseL }] ∧
    vBaseL.productHandle ≠ some scpRed.handle := by
  decide

/-- C2: every line emitted by the cart-line builder carries a strictly
positive quantity and a non-null (indeed non-empty) merchandise id. -/
theorem c2_cart_lines_positive_quantity_and_id
    (scp : Option ColorProduct) (effOpt : Option ProductOption)
    (q : QuantityMap) (values : List OptionValue) (line : CartLine)
    (hmem : line ∈ cartLines scp effOpt q values) :
    (∃ n : Int, line.quantity = some n ∧ 0 < n) ∧
    (∃ s : String, line.merchandiseId = some s ∧ s ≠ "") := by
  unfold cartLines at hmem
  rw [List.mem_filter] at hmem
  obtain ⟨hmap, hmid⟩ := hmem
  rw [List.mem_map] at hmap
  obtain ⟨value, hval, rfl⟩ := hmap
  rw [List.mem_filter] at hval
  obtain ⟨-, hkeep⟩ := hval
  constructor
  · unfold keepValue at hkeep
    cases hq : q value.name with
    | none => rw [hq] at hkeep; simp at hkeep
    | some n =>
      rw [hq] at hkeep
      by_cases hn : n ≤ 0
      · simp [hn] at hkeep
      · exact ⟨n, by simp [toLine, hq], by omega⟩
  · unfold truthyMid at hmid
    cases hm : (toLine scp effOpt q value).merchandiseId with
    | none => rw [hm] at hmid; simp at hmid
    | some s =>
      rw [hm] at hmid
      simp at hmid
      exact ⟨s, rfl, hmid⟩

/-- Witness for C2 at a concrete input: the single line built for size L of
the red bundle has positive quantity and a non-empty id. -/
theorem c2_witness :
    (∃ n : Int,
      (CartLine.mk (some "gid-red-M") (some 4) (some vRedM)).quantity = some n ∧
        0 < n) ∧
    (∃ s : String,
      (CartLine.mk (some "gid-red-M") (some 4) (some vRedM)).merchandiseId =
          some s ∧ s ≠ "") :=
  c2_cart_lines_positive_quantity_and_id (some scpRed) none
    (fun n => if n = "M" then some 4 else none)
    [{ name := "M", firstSelectableVariant := none,
       available := true, exists_ := true }]
    (CartLine.mk (some "gid-red-M") (some 4) (some vRedM))
    (by decide)

/-- C3: with a color bundle present, a resolved variant whose product handle
differs from the bundle handle is reported unavailable whatever its own
availableForSale flag says; with matching handles availability equals that
flag. -/
theorem c3_availability_requires_matching_handle
    (v : Variant) (p : ColorProduct) (value : OptionValue) :
    (v.productHandle ≠ some p.handle →
      computeAvailable (some v) (some p) value = false) ∧
    (v.productHandle = some p.handle →
      computeAvailable (some v) (some p) value = v.availableForSale) := by
  constructor <;> intro h <;> simp [computeAvailable, h]

/-- Witness for C3: the shirt-blue variant, although availableForSale, is
reported unavailable against the shirt-red bundle. -/
theorem c3_witness :
    computeAvailable (some vForeignL) (some scpRed) valueL = false ∧
    vForeignL.availableForSale = true :=
  ⟨(c3_availability_requires_matching_handle vForeignL scpRed valueL).1
      (by decide),
   by decide⟩

/-- C4: when the strict step-1 scan fails and the pre-resolved candidate of
the effective size option belongs to another product handle, the display
path rejects it and resolves null, but the cart-line builder accepts the
candidate unvalidated and emits a line for the foreign variant. -/
theorem c4_cart_path_accepts_foreign_candidate :
    findVariantStrict (some scpRed) "L" = none ∧
    (findColorSizeValue (some effOptForeign) "L").bind
        OptionValue.firstSelectableVariant = some vForeignL ∧
    vForeignL.productHandle ≠ some scpRed.handle ∧
    resolveDisplay (some scpRed) (some effOptForeign) valueLBare = none ∧
    cartLines (some scpRed) (some effOptForeign) qL1 [valueLBare] =
      [{ merchandiseId := some "gid-blue-L", quantity := some 1,
         selectedVariant := some vForeignL }] := by
  decide

/-- Counterexample to C5: with no color product, a size whose base flags are
set but whose base fallback variant is absent resolves to no variant, yet
the computed availability is true and the reported stock is the 999
sentinel, not the 0 the claim requires for the no-variant case. -/
theorem c5_counterexample_no_variant_stock_999 :
    resolveDisplay none none valueLBare = none ∧
    computeAvailable none none valueLBare = true ∧
    stockQuantity none (computeAvailable none none valueLBare) = 999 ∧
    ((999 : Int) = 0 → False) := by
  decide

/-- C5 (amended): a non-null inventory count is reported verbatim; when the
inventory count is null or no variant is resolved, the stock is 999 exactly
when the computed availability is true (which the base fallback can make
true even with no variant) and 0 when it is false. -/
theorem c5_stock_rules_amended (variant : Option Variant)
    (scp : Option ColorProduct) (value : OptionValue) :
    (∀ v n, variant = some v → v.quantityAvailable = some n →
      stockQuantity variant (computeAvailable variant scp value) = n) ∧
    ((variant = none ∨ ∃ v, variant = some v ∧ v.quantityAvailable = none) →
      (computeAvailable variant scp value = true →
        stockQuantity variant (computeAvailable variant scp value) = 999) ∧
      (computeAvailable variant scp value = false →
        stockQuantity variant (computeAvailable variant scp value) = 0)) := by
  refine ⟨?_, ?_⟩
  · intro v n hv hn
    subst hv
    simp [stockQuantity, hn]
  · intro hnull
    constructor <;> intro hav <;>
      rcases hnull with h | ⟨v, hv, hn⟩
    · subst h; simp [stockQuantity, hav]
    · subst hv; simp [stockQuantity, hn, hav]
    · subst h; simp [stockQuantity, hav]
    · subst hv; simp [stockQuantity, hn, hav]

/-- Witness for C5 (amended): the red M variant's count of 4 is reported
verbatim. -/
theorem c5_witness :
    stockQuantity (some vRedM)
      (computeAvailable (some vRedM) (some scpRed) valueM) = 4 :=
  (c5_stock_rules_amended (some vRedM) (some scpRed) valueM).1 vRedM 4 rfl rfl

/-- Pointwise agreement of the loose and strict adjacent-scan predicates on
an entry whose variant carries the bundle's own product handle. -/
theorem matches_eq_of_handle (p : ColorProduct) (s : String)
    (ov : Option Variant)
    (h : ∀ v, ov = some v → v.productHandle = some p.handle) :
    looseMatches s ov = strictMatches p (trimJS s) ov := by
  cases ov with
  | none => rfl
  | some v =>
    have hv := h v rfl
    cases hso : v.selectedOptions with
    | none => simp [looseMatches, strictMatches, hso]
    | some opts => simp [looseMatches, strictMatches, hso, hv]

/-- Counterexample to C6: on a bundle whose adjacent list contains a variant
of another product, the loose resolution returns that foreign variant while
the strict resolution returns none — the two are not extensionally equal. -/
theorem c6_counterexample_loose_strict_diverge :
    findVariantLoose (some scpRedForeign) "L" = some vForeignL ∧
    findVariantStrict (some scpRedForeign) "L" = none ∧
    (some vForeignL = (none : Option Variant) → False) := by
  decide

/-- C6 (amended): the loose findVariantForSize of the cart-line builder and
the strict findVariantForSize of the display path agree on every input whose
adjacent variants all genuinely carry the bundle's own product handle; the
counterexample shows they diverge as soon as a foreign-handle variant
appears in the adjacent list. -/
theorem c6_resolutions_agree_on_consistent_bundles
    (scp : Option ColorProduct) (sizeName : String)
    (h : ∀ p, scp = some p → ∀ avs, p.adjacentVariants = some avs →
      ∀ ov ∈ avs, ∀ v, ov = some v → v.productHandle = some p.handle) :
    findVariantLoose scp sizeName = findVariantStrict scp sizeName := by
  cases scp with
  | none => rfl
  | some p =>
    cases hav : p.adjacentVariants with
    | none => simp [findVariantLoose, findVariantStrict, hav]
    | some avs =>
      have hcong : avs.find? (looseMatches sizeName) =
          avs.find? (strictMatches p (trimJS sizeName)) :=
        findOpt_congr _ _ avs (fun ov hov =>
          matches_eq_of_handle p sizeName ov
            (fun v hv => h p rfl avs hav ov hov v hv))
      simp [findVariantLoose, findVariantStrict, hav, hcong]

/-- Witness for C6 (amended): on the consistent red bundle the two lookups
coincide. -/
theorem c6_witness :
    findVariantLoose (some scpRed) "M" = findVariantStrict (some scpRed) "M" :=
  c6_resolutions_agree_on_consistent_bundles (some scpRed) "M" (by
    intro p hp avs havs ov hov v hv
    injection hp with hp1
    subst hp1
    have havs2 : some [some vRedM] = some avs := havs
    injection havs2 with h2
    subst h2
    rw [List.mem_singleton] at hov
    subst hov
    injection hv with h3
    subst h3
    rfl)

/-- C8: the cart-line builder distributes over concatenation of the size
option list (hence preserves the stable input order), a size with quantity 0
or unset contributes no line, and on the scenario-3 state S mapsto 2,
M mapsto 0, L mapsto 1 it returns exactly the S line then the L line. -/
theorem c8_cart_lines_order_and_zero_omission :
    (∀ (scp : Option ColorProduct) (effOpt : Option ProductOption)
        (q : QuantityMap) (xs ys : List OptionValue),
      cartLines scp effOpt q (xs ++ ys) =
        cartLines scp effOpt q xs ++ cartLines scp effOpt q ys) ∧
    (∀ (scp : Option ColorProduct) (effOpt : Option ProductOption)
        (q : QuantityMap) (value : OptionValue),
      (q value.name = none ∨ q value.name = some 0) →
      cartLines scp effOpt q [value] = []) ∧
    cartLines none (some sizeOptSML) qSML sizeOptSML.optionValues =
      [{ merchandiseId := some "gid-S", quantity := some 2,
         selectedVariant := some vS },
       { merchandiseId := some "gid-L", quantity := some 1,
         selectedVariant := some vL3 }] := by
  refine ⟨?_, ?_, by decide⟩
  · intro scp effOpt q xs ys
    exact cartLines_append scp effOpt q xs ys
  · intro scp effOpt q value h
    rcases h with h | h <;> simp [cartLines, List.filter, keepValue, h]

/-- Witness for C8: size M with its zero quantity contributes no line. -/
theorem c8_witness : cartLines none (some sizeOptSML) qSML [valueM] = [] :=
  c8_cart_lines_order_and_zero_omission.2.1 none (some sizeOptSML) qSML valueM
    (Or.inr (by decide))

/-- C9: when the size selector is not used (no Size option, or only one
value), the standard form submits exactly one line with quantity 1 for the
selected variant and is disabled with an empty line list when no variant is
resolvable. -/
theorem c9_standard_form_single_line (productOptions : List ProductOption)
    (selectedVariant : Option Variant)
    (_hbranch : usesSizeSelector productOptions = false) :
    (selectedVariant = none →
      standardFormLines selectedVariant = [] ∧
      standardFormDisabled selectedVariant = true) ∧
    ∀ v, selectedVariant = some v →
      standardFormLines selectedVariant =
        [{ merchandiseId := v.id, quantity := some 1,
           selectedVariant := some v }] := by
  constructor
  · intro h
    subst h
    exact ⟨rfl, rfl⟩
  · intro v h
    subst h
    rfl

/-- Witness for C9: a product with no options uses the standard form, and a
present selected variant yields the single quantity-1 line. -/
theorem c9_witness :
    standardFormLines (some vS) =
      [{ merchandiseId := some "gid-S", quantity := some 1,
         selectedVariant := some vS }] :=
  (c9_standard_form_single_line [] (some vS) (by decide)).2 vS rfl

/-- C10: every emitted cart line carries the raw requested quantity from the
quantity map unaltered, and on a concrete input the emitted quantity 5000
strictly exceeds both the resolved variant's known inventory count 3 and the
999 sentinel — the builder never clamps. -/
theorem c10_quantity_never_clamped :
    (∀ (scp : Option ColorProduct) (effOpt : Option ProductOption)
        (q : QuantityMap) (values : List OptionValue) (line : CartLine),
      line ∈ cartLines scp effOpt q values →
      ∃ value, value ∈ values ∧ line = toLine scp effOpt q value ∧
        line.quantity = q value.name) ∧
    (cartLines none none qBig [valueBig] =
        [{ merchandiseId := some "gid-big", quantity := some 5000,
           selectedVariant := some vBig }] ∧
      vBig.quantityAvailable = some 3 ∧ (3 : Int) < 5000 ∧
      (999 : Int) < 5000) := by
  constructor
  · intro scp effOpt q values line hmem
    unfold cartLines at hmem
    rw [List.mem_filter] at hmem
    obtain ⟨hmap, -⟩ := hmem
    rw [List.mem_map] at hmap
    obtain ⟨value, hval, rfl⟩ := hmap
    rw [List.mem_filter] at hval
    exact ⟨value, hval.1, rfl, by simp [toLine]⟩
  · decide

/-- Price erasure does not change the loose adjacent-scan predicate, which
never reads the price. -/
theorem looseMatches_strip (s : String) (ov : Option Variant) :
    looseMatches s (stripPriceOV ov) = looseMatches s ov := by
  cases ov with
  | none => rfl
  | some v =>
    cases hso : v.selectedOptions with
    | none => simp [looseMatches, stripPriceOV, stripPriceV, hso]
    | some opts => simp [looseMatches, stripPriceOV, stripPriceV, hso]

/-- Price erasure commutes with the loose findVariantForSize. -/
theorem findVariantLoose_strip (scp : Option ColorProduct) (s : String) :
    findVariantLoose (scp.map stripPriceCP) s =
      (findVariantLoose scp s).map stripPriceV := by
  cases scp with
  | none => rfl
  | some p =>
    cases hav : p.adjacentVariants with
    | none => simp [findVariantLoose, stripPriceCP, hav]
    | some avs =>
      have hmap : (avs.map stripPriceOV).find? (looseMatches s) =
          (avs.find? (looseMatches s)).map stripPriceOV := by
        rw [List.find?_map]
        exact congrArg (Option.map stripPriceOV)
          (findOpt_congr _ _ avs (fun ov _ => looseMatches_strip s ov))
      have hls : findVariantLoose (some (stripPriceCP p)) s =
          match (avs.map stripPriceOV).find? (looseMatches s) with
          | some (some v) => some v
          | _ => none := by
        simp [findVariantLoose, stripPriceCP, hav]
      have hrs : findVariantLoose (some p) s =
          match avs.find? (looseMatches s) with
          | some (some v) => some v
          | _ => none := by
        simp [findVariantLoose, hav]
      rw [show Option.map stripPriceCP (some p) = some (stripPriceCP p)
        from rfl]
      rw [hls, hrs, hmap]
      cases avs.find? (looseMatches s) with
      | none => rfl
      | some ov =>
        cases ov with
        | none => rfl
        | some v => rfl

/-- Price erasure commutes with the lookup of the color size value. -/
theorem findColorSizeValue_strip (effOpt : Option ProductOption)
    (label : String) :
    findColorSizeValue (effOpt.map stripPriceOption) label =
      (findColorSizeValue effOpt label).map stripPriceValue := by
  cases effOpt with
  | none => rfl
  | some eo =>
    have h : (eo.optionValues.map stripPriceValue).find?
        (fun v => v.name = label) =
        (eo.optionValues.find? (fun v => v.name = label)).map
          stripPriceValue := by
      rw [List.find?_map]
      exact congrArg (Option.map stripPriceValue)
        (findOpt_congr _ _ eo.optionValues (fun v _ => rfl))
    simp [findColorSizeValue, stripPriceOption, h]

/-- Price erasure commutes with the cart path's per-size resolution. -/
theorem resolveCart_strip (scp : Option ColorProduct)
    (effOpt : Option ProductOption) (value : OptionValue) :
    resolveCart (scp.map stripPriceCP) (effOpt.map stripPriceOption)
        (stripPriceValue value) =
      (resolveCart scp effOpt value).map stripPriceV := by
  unfold resolveCart
  rw [show (stripPriceValue value).name = value.name from rfl,
    findVariantLoose_strip, findColorSizeValue_strip]
  cases hf : findVariantLoose scp value.name with
  | some v => rfl
  | none =>
    cases hc : findColorSizeValue effOpt value.name with
    | none => simp [stripPriceValue]
    | some csv =>
      cases hcv : csv.firstSelectableVariant with
      | none => simp [stripPriceValue, hcv]
      | some w => simp [stripPriceValue, hcv]

/-- Price erasure does not change the cart-line filter: quantity, id and
availability are all price-independent. -/
theorem keepValue_strip (scp : Option ColorProduct)
    (effOpt : Option ProductOption) (q : QuantityMap) (value : OptionValue) :
    keepValue (scp.map stripPriceCP) (effOpt.map stripPriceOption) q
        (stripPriceValue value) = keepValue scp effOpt q value := by
  unfold keepValue
  rw [show (stripPriceValue value).name = value.name from rfl,
    resolveCart_strip]
  cases hq : q value.name with
  | none => rfl
  | some n =>
    by_cases hn : n ≤ 0
    · simp [hn]
    · simp only [hn, if_false]
      cases hr : resolveCart scp effOpt value with
      | none => rfl
      | some v => simp [truthyId, stripPriceV]

/-- Price erasure keeps the merchandise id and quantity of a built line. -/
theorem toLine_strip_key (scp : Option ColorProduct)
    (effOpt : Option ProductOption) (q : QuantityMap) (value : OptionValue) :
    lineKey (toLine (scp.map stripPriceCP) (effOpt.map stripPriceOption) q
        (stripPriceValue value)) = lineKey (toLine scp effOpt q value) := by
  unfold toLine lineKey
  rw [show (stripPriceValue value).name = value.name from rfl,
    resolveCart_strip]
  cases hr : resolveCart scp effOpt value with
  | none => rfl
  | some v => simp [stripPriceV]

/-- Price erasure on a single size option value: the emitted line keys are
unchanged. -/
theorem cartLines_singleton_strip_keys (scp : Option ColorProduct)
    (effOpt : Option ProductOption) (q : QuantityMap) (value : OptionValue) :
    (cartLines (scp.map stripPriceCP) (effOpt.map stripPriceOption) q
        [stripPriceValue value]).map lineKey =
      (cartLines scp effOpt q [value]).map lineKey := by
  have hkey := toLine_strip_key scp effOpt q value
  have hmid : (toLine (scp.map stripPriceCP) (effOpt.map stripPriceOption) q
      (stripPriceValue value)).merchandiseId =
      (toLine scp effOpt q value).merchandiseId := congrArg Prod.fst hkey
  have hmidB : truthyMid (toLine (scp.map stripPriceCP)
      (effOpt.map stripPriceOption) q (stripPriceValue value)) =
      truthyMid (toLine scp effOpt q value) := by
    unfold truthyMid
    rw [hmid]
  cases hk : keepValue scp effOpt q value with
  | false =>
    have hks : keepValue (scp.map stripPriceCP) (effOpt.map stripPriceOption)
        q (stripPriceValue value) = false := by
      rw [keepValue_strip]
      exact hk
    simp [cartLines, List.filter, hk, hks]
  | true =>
    have hks : keepValue (scp.map stripPriceCP) (effOpt.map stripPriceOption)
        q (stripPriceValue value) = true := by
      rw [keepValue_strip]
      exact hk
    cases hm : truthyMid (toLine scp effOpt q value) with
    | false =>
      have hms : truthyMid (toLine (scp.map stripPriceCP)
          (effOpt.map stripPriceOption) q (stripPriceValue value)) = false := by
        rw [hmidB]
        exact hm
      simp [cartLines, List.filter, hk, hks, hm, hms]
    | true =>
      have hms : truthyMid (toLine (scp.map stripPriceCP)
          (effOpt.map stripPriceOption) q (stripPriceValue value)) = true := by
        rw [hmidB]
        exact hm
      simp [cartLines, List.filter, hk, hks, hm, hms, hkey]

/-- Price erasure over the whole input leaves the emitted merchandise ids
and quantities unchanged: no price value ever blocks or alters a cart
line's submission content. -/
theorem cartLines_strip_keys (scp : Option ColorProduct)
    (effOpt : Option ProductOption) (q : QuantityMap)
    (values : List OptionValue) :
    (cartLines (scp.map stripPriceCP) (effOpt.map stripPriceOption) q
        (values.map stripPriceValue)).map lineKey =
      (cartLines scp effOpt q values).map lineKey := by
  induction values with
  | nil => rfl
  | cons value rest ih =>
    rw [show (value :: rest).map stripPriceValue =
      [stripPriceValue value] ++ rest.map stripPriceValue from rfl]
    rw [show value :: rest = [value] ++ rest from rfl]
    rw [cartLines_append, cartLines_append, List.map_append, List.map_append,
      cartLines_singleton_strip_keys, ih]

/-- Counterexample to C7: a resolved variant whose price amount is the
malformed string abc yields NaN from parseFloat, not the 0 the claim
requires for malformed amounts. -/
theorem c7_counterexample_malformed_price_is_nan :
    price (some vMalformedPrice) = none ∧
    ((none : Option Rat) = some 0 → False) := by
  decide

/-- C7 (amended): the displayed price is 0 when no variant is resolved, when
the variant has no price amount, or when the amount is the empty string; a
non-empty amount is handed to parseFloat, whose result can be NaN (for a
malformed string) or negative, not 0; and the cart-line builder is
price-independent: erasing every price amount leaves the emitted merchandise
ids and quantities unchanged, so a malformed or missing price never blocks a
line. -/
theorem c7_price_rules_amended (variant : Option Variant) :
    (variant = none → price variant = some 0) ∧
    (∀ v, variant = some v → v.priceAmount = none → price variant = some 0) ∧
    (∀ v, variant = some v → v.priceAmount = some "" →
      price variant = some 0) ∧
    (∀ v a, variant = some v → v.priceAmount = some a → a ≠ "" →
      price variant = parseFloatJS a) ∧
    (∀ (scp : Option ColorProduct) (effOpt : Option ProductOption)
        (q : QuantityMap) (values : List OptionValue),
      (cartLines (scp.map stripPriceCP) (effOpt.map stripPriceOption) q
          (values.map stripPriceValue)).map lineKey =
        (cartLines scp effOpt q values).map lineKey) := by
  refine ⟨?_, ?_, ?_, ?_,
    fun scp effOpt q values => cartLines_strip_keys scp effOpt q values⟩
  · intro h
    subst h
    rfl
  · intro v h hp
    subst h
    simp [price, hp]
  · intro v h hp
    subst h
    simp [price, hp]
  · intro v a h hp ha
    subst h
    simp [price, hp, ha]

/-- Witness for C7 (amended): the red M variant's non-empty amount string is
parsed by parseFloat and evaluates to 10. -/
theorem c7_witness :
    price (some vRedM) = parseFloatJS "10.0" ∧
    parseFloatJS "10.0" = some 10 :=
  ⟨(c7_price_rules_amended (some vRedM)).2.2.2.1 vRedM "10.0" rfl rfl
      (by decide),
   by decide⟩

/-- Witness for C10: the single XL line is the unaltered image of its size
option value under the line builder. -/
theorem c10_witness :
    ∃ value, value ∈ [valueBig] ∧
      ({ merchandiseId := some "gid-big", quantity := some 5000,
         selectedVariant := some vBig } : CartLine) =
          toLine none none qBig value ∧
      ({ merchandiseId := some "gid-big", quantity := some 5000,
         selectedVariant := some vBig } : CartLine).quantity =
          qBig value.name :=
  c10_quantity_never_clamped.1 none none qBig [valueBig] _ (by decide)

end ProductForm
